import Mathlib

/-!
HID report-descriptor quirk drivers.

A shallow embedding of the three drivers `hid-f74n.c`, `hid-sfp.c` and
`hid-vkbsim-gsc.c`: their static descriptor tables, their `report_fixup`
and `probe` callbacks and their device id tables, followed by the
properties established about them.

Conventions.
* A `__u8` is a `Nat` below 256; an array of `__u8` is a `List Nat`.
* The static tables are declared `static __u8 name[]` (not `const`), so
  their contents are program state: `Statics` holds the current contents,
  `Statics.init` the initialisers written in the source.
* A pointer returned by `report_fixup` is the name (`Buf`) of the buffer it
  points to; `Statics.deref` reads the bytes behind it.
* Calls into the HID core (`hid_info`, `hid_err`, `hid_parse`,
  `hid_hw_start`) are recorded, in order, in a list of `HostCall`; the
  values `hid_parse` and `hid_hw_start` return are inputs of the model.
-/

set_option maxRecDepth 100000

namespace HidDrivers

/-! ## Kernel types used by the drivers -/

/-- The fields of `struct hid_device` the drivers or their host look at. -/
structure hid_device where
  vendor : Nat
  product : Nat
  dev_rsize : Nat
  deriving DecidableEq, Repr

/-- One call made by a driver into the HID core. -/
inductive HostCall
  | hid_info (msg : String)
  | hid_err (msg : String)
  | hid_parse
  | hid_hw_start (connect_mask : Nat)
  deriving DecidableEq, Repr

/-- What the kernel headers and the HID core supply to a probe call:
the two constants the drivers name, and the values `hid_parse(hdev)` and
`hid_hw_start(hdev, HID_CONNECT_DEFAULT)` return on this call. -/
structure Host where
  ENODEV : Int
  HID_CONNECT_DEFAULT : Nat
  parse_result : Int
  start_result : Int
  deriving DecidableEq, Repr

/-! ## The static descriptor tables -/

/-- Initialiser of `static __u8 f74n_rdesc_fixed[]` (hid-f74n.c). -/
def f74n_rdesc_fixed : List Nat := [
  0x05, 0x01,         -- Usage Page (Generic Desktop Ctrls)
  -- commented out in the source: 0x09, 0x04, -- Usage (Joystick) **Changed to 0x05 Game Pad
  0x09, 0x05,         -- Usage (Game Pad)
  0xA1, 0x01,         -- Collection (Application)
  0x15, 0x00,         -- Logical Minimum (0)
  0x25, 0x01,         -- Logical Maximum (1)
  0x75, 0x01,         -- Report Size (1)
  0x95, 0x20,         -- Report Count (32)
  0x05, 0x09,         -- Usage Page (Button)
  0x19, 0x01,         -- Usage Minimum (0x01)
  0x29, 0x20,         -- Usage Maximum (0x20)
  0x81, 0x02,         -- Input (Data,Var,Abs,No Wrap,Linear,Preferred State,No Null Position)
  0x15, 0x00,         -- Logical Minimum (0)
  0x25, 0x07,         -- Logical Maximum (7)
  0x35, 0x00,         -- Physical Minimum (0)
  0x46, 0x3B, 0x01,   -- Physical Maximum (315)
  0x75, 0x04,         -- Report Size (4)
  0x95, 0x01,         -- Report Count (1)
  0x65, 0x14,         -- Unit (System: English Rotation, Length: Centimeter)
  0x05, 0x01,         -- Usage Page (Generic Desktop Ctrls)
  0x09, 0x39,         -- Usage (Hat switch)
  0x81, 0x42,         -- Input (Data,Var,Abs,No Wrap,Linear,Preferred State,Null State)
  -- commented out in the source: 0x05, 0x01, -- Usage Page (Generic Desktop Ctrls)
  -- commented out in the source: 0x09, 0x01, -- Usage (Pointer)
  -- commented out in the source: 0xA1, 0x00, -- Collection (Physical)
  -- commented out in the source: 0x15, 0x00, -- Logical Minimum (0)
  -- commented out in the source: 0x26, 0xFF, 0x03, -- Logical Maximum (1023)
  -- commented out in the source: 0x75, 0x0A, -- Report Size (10)
  -- commented out in the source: 0x95, 0x04, -- Report Count (4)
  -- commented out in the source: 0x09, 0x30, -- Usage (X)
  -- commented out in the source: 0x09, 0x31, -- Usage (Y)
  -- commented out in the source: 0x09, 0x32, -- Usage (Z)
  -- commented out in the source: 0x09, 0x35, -- Usage (Rz)
  -- commented out in the source: 0x81, 0x02, -- Input (Data,Var,Abs,No Wrap,Linear,Preferred State,No Null Position)
  0xC0,               -- End Collection
  0x15, 0x00,         -- Logical Minimum (0)
  0x26, 0xFF, 0x03,   -- Logical Maximum (1023)
  0x75, 0x0A,         -- Report Size (10)
  0x95, 0x02,         -- Report Count (2)
  0x09, 0x36,         -- Usage (Slider)
  0x09, 0x36,         -- Usage (Slider)
  0x81, 0x02,         -- Input (Data,Var,Abs,No Wrap,Linear,Preferred State,No Null Position)
  0xC0                -- End Collection
  -- source comment: 85 bytes
]

/-- Initialiser of `static __u8 sfp_rdesc_fixed[]` (hid-sfp.c). -/
def sfp_rdesc_fixed : List Nat := [
  0x05, 0x01,         -- Usage Page (Generic Desktop Ctrls)
  0x09, 0x04,         -- Changed to Joystick instead of Gamepad
  0xA1, 0x01,         -- Collection (Application)
  0x09, 0x01,         -- Usage (Pointer)
  0xA1, 0x00,         -- Collection (Physical)
  0x05, 0x01,         -- Usage Page (Generic Desktop Ctrls)
  0x09, 0x30,         -- Usage (X)
  0x09, 0x31,         -- Usage (Y)
  0x09, 0x32,         -- Usage (Z)
  0x15, 0x00,         -- Logical Minimum (0)
  0x26, 0xFF, 0x0F,   -- Logical Maximum (4095)
  0x95, 0x03,         -- Report Count (3)
  0x75, 0x10,         -- Report Size (16)
  0x81, 0x02,         -- Input (Data,Var,Abs,No Wrap,Linear,Preferred State,No Null Position)
  -- commented out in the source: 0x05, 0x01, -- Usage Page (Generic Desktop Ctrls)
  0x05, 0x09,         -- Usage Page (Button)
  0x19, 0x01,         -- Usage IdMin (Button 1[1])
  0x29, 0x01,         -- UsageIdMax(Button 1[1])
  0x15, 0x00,         -- Logical Minimum (0)
  0x25, 0x01,         -- Logical Maximum (1)
  0x75, 0x01,         -- Report Size (1)
  0x96, 0x80, 0x00,   -- Report Count (1)
  0x81, 0x02,         -- Input (Data,Var,Abs,No Wrap,Linear,Preferred State,No Null Position)
  0xC0,               -- End Collection
  0xC0                -- End Collection
  -- source comment: 31 bytes
]

/-- Initialiser of `static __u8 gnescpr_rdesc_fixed[]` (hid-vkbsim-gsc.c). -/
def gnescpr_rdesc_fixed : List Nat := [
  0x05, 0x01,         -- Usage Page (Generic Desktop Ctrls)
  0x09, 0x04,         -- Usage (Joystick)
  0xA1, 0x01,         -- Collection (Application)
  0x05, 0x01,         -- Usage Page (Generic Desktop Ctrls)
  0x85, 0x01,         -- Report ID (1)
  0x05, 0x01,         -- Usage Page (Generic Desktop Ctrls)
  0x09, 0x30,         -- Usage (X)
  0x75, 0x10,         -- Report Size (16)
  0x95, 0x01,         -- Report Count (1)
  0x15, 0x00,         -- Logical Minimum (0)
  0x26, 0xFF, 0x0F,   -- Logical Maximum (4095)
  0x46, 0xFF, 0x0F,   -- Physical Maximum (4095)
  0x81, 0x02,         -- Input (Data,Var,Abs,No Wrap,Linear,Preferred State,No Null Position)
  0x05, 0x01,         -- Usage Page (Generic Desktop Ctrls)
  0x09, 0x31,         -- Usage (Y)
  0x75, 0x10,         -- Report Size (16)
  0x95, 0x01,         -- Report Count (1)
  0x15, 0x00,         -- Logical Minimum (0)
  0x26, 0xFF, 0x0F,   -- Logical Maximum (4095)
  0x46, 0xFF, 0x0F,   -- Physical Maximum (4095)
  0x81, 0x02,         -- Input (Data,Var,Abs,No Wrap,Linear,Preferred State,No Null Position)
  0x05, 0x01,         -- Usage Page (Generic Desktop Ctrls)
  0x09, 0x35,         -- Usage (Rz)
  0x75, 0x10,         -- Report Size (16)
  0x95, 0x01,         -- Report Count (1)
  0x15, 0x00,         -- Logical Minimum (0)
  0x26, 0xFF, 0x07,   -- Logical Maximum (2047)
  0x46, 0xFF, 0x07,   -- Physical Maximum (2047)
  0x81, 0x02,         -- Input (Data,Var,Abs,No Wrap,Linear,Preferred State,No Null Position)
  0x05, 0x01,         -- Usage Page (Generic Desktop Ctrls)
  0x09, 0x32,         -- Usage (Z)
  0x75, 0x10,         -- Report Size (16)
  0x95, 0x01,         -- Report Count (1)
  0x15, 0x00,         -- Logical Minimum (0)
  0x26, 0xFF, 0x07,   -- Logical Maximum (2047)
  0x46, 0xFF, 0x07,   -- Physical Maximum (2047)
  0x81, 0x02,         -- Input (Data,Var,Abs,No Wrap,Linear,Preferred State,No Null Position)
  0x05, 0x01,         -- Usage Page (Generic Desktop Ctrls)
  0x09, 0x33,         -- Usage (Rx)
  0x75, 0x10,         -- Report Size (16)
  0x95, 0x01,         -- Report Count (1)
  0x15, 0x00,         -- Logical Minimum (0)
  0x26, 0xFF, 0x03,   -- Logical Maximum (1023)
  0x46, 0xFF, 0x03,   -- Physical Maximum (1023)
  0x81, 0x02,         -- Input (Data,Var,Abs,No Wrap,Linear,Preferred State,No Null Position)
  0x05, 0x01,         -- Usage Page (Generic Desktop Ctrls)
  0x09, 0x34,         -- Usage (Ry)
  0x75, 0x10,         -- Report Size (16)
  0x95, 0x01,         -- Report Count (1)
  0x15, 0x00,         -- Logical Minimum (0)
  0x26, 0xFF, 0x03,   -- Logical Maximum (1023)
  0x46, 0xFF, 0x03,   -- Physical Maximum (1023)
  0x81, 0x02,         -- Input (Data,Var,Abs,No Wrap,Linear,Preferred State,No Null Position)
  0x05, 0x00,         -- Usage Page (Undefined)
  0x09, 0x00,         -- Usage (Undefined)
  0x75, 0x10,         -- Report Size (16)
  0x95, 0x01,         -- Report Count (1)
  0x15, 0x00,         -- Logical Minimum (0)
  0x26, 0xFF, 0x07,   -- Logical Maximum (2047)
  0x46, 0xFF, 0x07,   -- Physical Maximum (2047)
  0x81, 0x02,         -- Input (Data,Var,Abs,No Wrap,Linear,Preferred State,No Null Position)
  0x05, 0x00,         -- Usage Page (Undefined)
  0x09, 0x00,         -- Usage (Undefined)
  0x75, 0x10,         -- Report Size (16)
  0x95, 0x01,         -- Report Count (1)
  0x15, 0x00,         -- Logical Minimum (0)
  0x26, 0xFF, 0x07,   -- Logical Maximum (2047)
  0x46, 0xFF, 0x07,   -- Physical Maximum (2047)
  0x81, 0x02,         -- Input (Data,Var,Abs,No Wrap,Linear,Preferred State,No Null Position)
  0x05, 0x09,         -- Usage Page (Button)
  0x19, 0x01,         -- Usage Minimum (0x01)
  0x2A, 0x80, 0x00,   -- Usage Maximum (0x80)
  0x15, 0x00,         -- Logical Minimum (0)
  0x25, 0x01,         -- Logical Maximum (1)
  0x75, 0x01,         -- Report Size (1)
  0x96, 0x80, 0x00,   -- Report Count (128)
  0x81, 0x02,         -- Input (Data,Var,Abs,No Wrap,Linear,Preferred State,No Null Position)
  0x05, 0x01,         -- Usage Page (Generic Desktop Ctrls)
  0x09, 0x39,         -- Usage (Hat switch)
  0x15, 0x00,         -- Logical Minimum (0)
  0x26, 0x07, 0x00,   -- Logical Maximum (7)
  0x35, 0x00,         -- Physical Minimum (0)
  0x46, 0x68, 0x01,   -- Physical Maximum (360)
  0x65, 0x14,         -- Unit (System: English Rotation, Length: Centimeter)
  0x55, 0x01,         -- Unit Exponent (1)
  0x75, 0x04,         -- Report Size (4)
  0x95, 0x01,         -- Report Count (1)
  0x81, 0x42,         -- Input (Data,Var,Abs,No Wrap,Linear,Preferred State,Null State)
  0x09, 0x00,         -- Usage (Undefined)
  0x65, 0x00,         -- Unit (None)
  0x55, 0x00,         -- Unit Exponent (0)
  0x75, 0x04,         -- Report Size (4)
  0x95, 0x03,         -- Report Count (3)
  0x81, 0x01,         -- Input (Const,Array,Abs,No Wrap,Linear,Preferred State,No Null Position)
  0x05, 0x01,         -- Usage Page (Generic Desktop Ctrls)
  0x09, 0x00,         -- Usage (Undefined)
  0x75, 0x10,         -- Report Size (16)
  0x95, 0x01,         -- Report Count (1)
  0x81, 0x01,         -- Input (Const,Array,Abs,No Wrap,Linear,Preferred State,No Null Position)
  0x05, 0x01,         -- Usage Page (Generic Desktop Ctrls)
  0x09, 0x00,         -- Usage (Undefined)
  0x75, 0x10,         -- Report Size (16)
  0x95, 0x01,         -- Report Count (1)
  0x81, 0x01,         -- Input (Const,Array,Abs,No Wrap,Linear,Preferred State,No Null Position)
  0x05, 0x01,         -- Usage Page (Generic Desktop Ctrls)
  0x09, 0x00,         -- Usage (Undefined)
  0x75, 0x10,         -- Report Size (16)
  0x95, 0x01,         -- Report Count (1)
  0x81, 0x01,         -- Input (Const,Array,Abs,No Wrap,Linear,Preferred State,No Null Position)
  0x05, 0x01,         -- Usage Page (Generic Desktop Ctrls)
  0x09, 0x00,         -- Usage (Undefined)
  0x75, 0x08,         -- Report Size (8)
  0x95, 0x17,         -- Report Count (23)
  0x81, 0x01,         -- Input (Const,Array,Abs,No Wrap,Linear,Preferred State,No Null Position)
  0x85, 0x0B,         -- Report ID (11)
  0x05, 0x01,         -- Usage Page (Generic Desktop Ctrls)
  0x09, 0x00,         -- Usage (Undefined)
  0x75, 0x08,         -- Report Size (8)
  0x95, 0x3F,         -- Report Count (63)
  0x81, 0x01,         -- Input (Const,Array,Abs,No Wrap,Linear,Preferred State,No Null Position)
  0x85, 0x0C,         -- Report ID (12)
  0x05, 0x01,         -- Usage Page (Generic Desktop Ctrls)
  0x09, 0x00,         -- Usage (Undefined)
  0x75, 0x08,         -- Report Size (8)
  0x95, 0x3F,         -- Report Count (63)
  0x81, 0x01,         -- Input (Const,Array,Abs,No Wrap,Linear,Preferred State,No Null Position)
  0x85, 0x08,         -- Report ID (8)
  0x05, 0x01,         -- Usage Page (Generic Desktop Ctrls)
  0x09, 0x00,         -- Usage (Undefined)
  0x75, 0x08,         -- Report Size (8)
  0x95, 0x3F,         -- Report Count (63)
  0x81, 0x01,         -- Input (Const,Array,Abs,No Wrap,Linear,Preferred State,No Null Position)
  0x15, 0x00,         -- Logical Minimum (0)
  0x26, 0xFF, 0x00,   -- Logical Maximum (255)
  0x46, 0xFF, 0x00,   -- Physical Maximum (255)
  0x85, 0x58,         -- Report ID (88)
  0x75, 0x08,         -- Report Size (8)
  0x95, 0x3F,         -- Report Count (63)
  0x09, 0x00,         -- Usage (Undefined)
  0x91, 0x02,         -- Output (Data,Var,Abs,No Wrap,Linear,Preferred State,No Null Position,Non-volatile)
  0x85, 0x59,         -- Report ID (89)
  0x75, 0x08,         -- Report Size (8)
  0x95, 0x80,         -- Report Count (-128)
  0x09, 0x00,         -- Usage (Undefined)
  0xB1, 0x02,         -- Feature (Data,Var,Abs,No Wrap,Linear,Preferred State,No Null Position,Non-volatile)
  0xC0                -- End Collection
  -- source comment: 313 bytes
]

/-- The buffers a `report_fixup` return value can point to: the caller's raw
descriptor (`rdesc`) or one of the three static tables. -/
inductive Buf
  | rdesc
  | f74n_rdesc_fixed
  | sfp_rdesc_fixed
  | gnescpr_rdesc_fixed
  deriving DecidableEq, Repr

/-- Current contents of the three static tables. -/
structure Statics where
  f74n : List Nat
  sfp : List Nat
  gnescpr : List Nat
  deriving DecidableEq, Repr

/-- Contents of the static tables at load time. -/
def Statics.init : Statics :=
  { f74n := f74n_rdesc_fixed, sfp := sfp_rdesc_fixed, gnescpr := gnescpr_rdesc_fixed }

/-- Bytes behind a pointer, given the statics and the caller's raw buffer. -/
def Statics.deref (m : Statics) (raw : List Nat) : Buf → List Nat
  | .rdesc => raw
  | .f74n_rdesc_fixed => m.f74n
  | .sfp_rdesc_fixed => m.sfp
  | .gnescpr_rdesc_fixed => m.gnescpr

/-- The C operator `sizeof` applied to an array of `__u8`: the number of elements of its
initialiser (an element is one byte). -/
def sizeof (initialiser : List Nat) : Nat := initialiser.length

/-! ## The `report_fixup` callbacks -/

/-- Everything a `report_fixup` call leaves behind: the returned pointer,
the value stored to `*rsize`, the statics afterwards and the host calls
made. -/
structure FixupResult where
  ret : Buf
  rsize : Nat
  statics : Statics
  calls : List HostCall
  deriving DecidableEq, Repr

/-- Model of `f74n_report_fixup(hdev, rdesc, rsize)` where `rsize` is the incoming `*rsize`. -/
def f74n_report_fixup (m : Statics) (_hdev : hid_device) (_rdesc : List Nat)
    (_rsize : Nat) : FixupResult :=
  { calls := [.hid_info "fixing up Polsimer F74N Formula Wheel report descriptor\n"]
    rsize := sizeof f74n_rdesc_fixed
    ret := .f74n_rdesc_fixed
    statics := m }

/-- Model of `sfp_report_fixup(hdev, rdesc, rsize)`. The source line reads
`return sfp_rdesc_fixed;w`: the stray `w` after the complete return
statement is not modelled. -/
def sfp_report_fixup (m : Statics) (_hdev : hid_device) (_rdesc : List Nat)
    (_rsize : Nat) : FixupResult :=
  { calls := [.hid_info "fixing up SimFeel Pedal report descriptor\n"]
    rsize := sizeof sfp_rdesc_fixed
    ret := .sfp_rdesc_fixed
    statics := m }

/-- Model of `gnescpr_report_fixup(hdev, rdesc, rsize)`. -/
def gnescpr_report_fixup (m : Statics) (_hdev : hid_device) (_rdesc : List Nat)
    (_rsize : Nat) : FixupResult :=
  { calls := [.hid_info
      "fixing up VKB-Sim Gladiator NXT EVO SC Premium Right report descriptor\n"]
    rsize := sizeof gnescpr_rdesc_fixed
    ret := .gnescpr_rdesc_fixed
    statics := m }

/-! ## The `probe` callbacks -/

/-- What a probe call leaves behind: the returned `int` and the host calls
made, in order. -/
structure ProbeResult where
  ret : Int
  calls : List HostCall
  deriving DecidableEq, Repr

/-- Model of `f74n_probe(hdev, id)`. -/
def f74n_probe (h : Host) (hdev : hid_device) : ProbeResult :=
  if hdev.dev_rsize = 23 then
    ⟨-h.ENODEV, []⟩
  else
    let ret := h.parse_result
    if ret ≠ 0 then
      ⟨ret, [.hid_parse, .hid_err "parse failed\n"]⟩
    else
      let ret := h.start_result
      if ret ≠ 0 then
        ⟨ret, [.hid_parse, .hid_hw_start h.HID_CONNECT_DEFAULT, .hid_err "hw start failed\n"]⟩
      else
        ⟨0, [.hid_parse, .hid_hw_start h.HID_CONNECT_DEFAULT]⟩

/-- Model of `sfp_probe(hdev, id)`. -/
def sfp_probe (h : Host) (hdev : hid_device) : ProbeResult :=
  if hdev.dev_rsize = 23 then
    ⟨-h.ENODEV, []⟩
  else
    let ret := h.parse_result
    if ret ≠ 0 then
      ⟨ret, [.hid_parse, .hid_err "parse failed\n"]⟩
    else
      let ret := h.start_result
      if ret ≠ 0 then
        ⟨ret, [.hid_parse, .hid_hw_start h.HID_CONNECT_DEFAULT, .hid_err "hw start failed\n"]⟩
      else
        ⟨0, [.hid_parse, .hid_hw_start h.HID_CONNECT_DEFAULT]⟩

/-- Model of `gnescpr_probe(hdev, id)`. -/
def gnescpr_probe (h : Host) (hdev : hid_device) : ProbeResult :=
  if hdev.dev_rsize = 23 then
    ⟨-h.ENODEV, []⟩
  else
    let ret := h.parse_result
    if ret ≠ 0 then
      ⟨ret, [.hid_parse, .hid_err "parse failed\n"]⟩
    else
      let ret := h.start_result
      if ret ≠ 0 then
        ⟨ret, [.hid_parse, .hid_hw_start h.HID_CONNECT_DEFAULT, .hid_err "hw start failed\n"]⟩
      else
        ⟨0, [.hid_parse, .hid_hw_start h.HID_CONNECT_DEFAULT]⟩

/-- Number of `hid_parse` calls in a call list. -/
def parseCalls (cs : List HostCall) : Nat :=
  cs.countP fun c => match c with
    | .hid_parse => true
    | _ => false

/-- Number of `hid_hw_start` calls in a call list. -/
def startCalls (cs : List HostCall) : Nat :=
  cs.countP fun c => match c with
    | .hid_hw_start _ => true
    | _ => false

/-! ## The device id tables -/

/-- The object-like `#define` lines of one source file: name and value. -/
abbrev Defines := List (String × Nat)

/-- The two `#define` lines of hid-f74n.c. -/
def f74n_defines : Defines :=
  [("POLSIMER_VENDOR_ID", 0x16c0), ("POLSIMER_F74N_DEVICE_ID", 0x0486)]

/-- The two `#define` lines of hid-sfp.c. -/
def sfp_defines : Defines :=
  [("USB_VENDOR_ID_SIMFEEL_PEDALS", 0x10c4), ("USB_DEVICE_ID_SIMFEEL_PEDALS", 0x8ccc)]

/-- The two `#define` lines of hid-vkbsim-gsc.c. -/
def gnescpr_defines : Defines :=
  [("VKBSIM_VENDOR_ID", 0x231d), ("VKBSIM_GLADIATOR_ESC_PR_DEVICE_ID", 0x0200)]

/-- An entry of a `struct hid_device_id` array as written in the source:
`{ HID_USB_DEVICE(ven, prod) }` with the two identifiers passed, or the
empty terminating entry. -/
inductive IdEntry
  | usb (ven prod : String)
  | sentinel
  deriving DecidableEq, Repr

/-- The array `f74n_devices` of hid-f74n.c. -/
def f74n_devices : List IdEntry :=
  [.usb "USB_VENDOR_ID_f74n" "USB_DEVICE_ID_f74n", .sentinel]

/-- The array `sfp_devices` of hid-sfp.c. -/
def sfp_devices : List IdEntry :=
  [.usb "USB_VENDOR_ID_SIMFEEL_PEDALS" "USB_DEVICE_ID_SIMFEEL_PEDALS", .sentinel]

/-- The array `gnescpr_devices` of hid-vkbsim-gsc.c. -/
def gnescpr_devices : List IdEntry :=
  [.usb "USB_VENDOR_ID_gnescpr" "USB_DEVICE_ID_gnescpr", .sentinel]

/-- The entries of an id table that come before its first sentinel. -/
def beforeSentinel (tbl : List IdEntry) : List IdEntry :=
  tbl.takeWhile fun e => decide (e ≠ IdEntry.sentinel)

/-- The (vendor, product) pair an entry denotes once its two identifiers are
replaced by the values the file defines for them; `none` when an identifier
has no definition in the file (the kernel headers the drivers include define
no identifier of these names) or for the sentinel. -/
def identityOf (defs : Defines) : IdEntry → Option (Nat × Nat)
  | .usb ven prod =>
    match defs.lookup ven, defs.lookup prod with
    | some v, some p => some (v, p)
    | _, _ => none
  | .sentinel => none

/-- The identities a driver registers: those of the entries before the
sentinel. -/
def registered (defs : Defines) (tbl : List IdEntry) : List (Option (Nat × Nat)) :=
  (beforeSentinel tbl).map (identityOf defs)

/-! ## Reading a table as a HID item stream

The drivers hand their tables to the HID core and never read them; the
definitions below state what it means for such a table to be a stream of
short items, as the HID report-descriptor format defines them. -/

/-- One short item: its first byte and its data bytes. -/
structure Item where
  head : Nat
  data : List Nat
  deriving DecidableEq, Repr

/-- Data length selected by the low two bits of an item's first byte. -/
def dataLen (b : Nat) : Nat :=
  match b % 4 with
  | 0 => 0
  | 1 => 1
  | 2 => 2
  | _ => 4

/-- Split bytes into consecutive short items; `none` when the last item is
cut short. Every step consumes at least one byte, so `fuel` equal to the
number of bytes is never exhausted (`parseItems_fuel`). -/
def parseItems : Nat → List Nat → Option (List Item)
  | _, [] => some []
  | 0, _ :: _ => none
  | fuel + 1, b :: rest =>
    if rest.length < dataLen b then none
    else
      (parseItems fuel (rest.drop (dataLen b))).map
        fun is => { head := b, data := rest.take (dataLen b) } :: is

/-- The items of a table. -/
def items (tbl : List Nat) : Option (List Item) := parseItems tbl.length tbl

/-- Collection nesting, starting at depth `d`: true when the depth never drops below
zero and is zero after the last item. -/
def balancedFrom : Nat → List Item → Bool
  | d, [] => d == 0
  | d, it :: rest =>
    if it.head = 0xA1 then balancedFrom (d + 1) rest
    else if it.head = 0xC0 then
      match d with
      | 0 => false
      | d + 1 => balancedFrom d rest
    else balancedFrom d rest

/-- A table is a well-formed item stream: its bytes split exactly into short
items and its collections are balanced. -/
def wellFormed (tbl : List Nat) : Bool :=
  match items tbl with
  | none => false
  | some is => balancedFrom 0 is

/-- The unsigned little-endian value of an item's data bytes. -/
def leValue : List Nat → Nat
  | [] => 0
  | b :: rest => b + 256 * leValue rest

/-- The three kinds of main item that carry report data. -/
inductive Kind
  | input
  | output
  | feature
  deriving DecidableEq, Repr

/-- The bits one main item adds to a report. -/
structure Field where
  reportId : Option Nat
  kind : Kind
  bits : Nat
  deriving DecidableEq, Repr

/-- An item's first byte without its two size bits. -/
def tagOf (it : Item) : Nat := it.head - it.head % 4

/-- Walk the items with the global state in effect (Report ID, Report Size,
Report Count) and list, for every Input, Output and Feature item, the bits
it adds: Report Size times Report Count. -/
def fieldsFrom (rid : Option Nat) (size count : Nat) : List Item → List Field
  | [] => []
  | it :: rest =>
    if tagOf it = 0x84 then fieldsFrom (some (leValue it.data)) size count rest
    else if tagOf it = 0x74 then fieldsFrom rid (leValue it.data) count rest
    else if tagOf it = 0x94 then fieldsFrom rid size (leValue it.data) rest
    else if tagOf it = 0x80 then ⟨rid, .input, size * count⟩ :: fieldsFrom rid size count rest
    else if tagOf it = 0x90 then ⟨rid, .output, size * count⟩ :: fieldsFrom rid size count rest
    else if tagOf it = 0xB0 then ⟨rid, .feature, size * count⟩ :: fieldsFrom rid size count rest
    else fieldsFrom rid size count rest

/-- Total bits of the report with the given id and kind. -/
def reportBits (fs : List Field) (rid : Option Nat) (kind : Kind) : Nat :=
  ((fs.filter fun f => decide (f.reportId = rid ∧ f.kind = kind)).map Field.bits).sum

/-- The contract of a probe call on an accepted interface, for the host
results in `h`: `hid_parse` is called exactly once; a non-zero parse result
is returned as it is and `hid_hw_start` is not called; after a zero parse
result `hid_hw_start` is called exactly once and its result is returned;
so the probe returns 0 exactly when both results are 0. -/
def MapsHostResults (h : Host) (r : ProbeResult) : Prop :=
  parseCalls r.calls = 1 ∧
  (h.parse_result ≠ 0 → r.ret = h.parse_result ∧ startCalls r.calls = 0) ∧
  (h.parse_result = 0 → r.ret = h.start_result ∧ startCalls r.calls = 1) ∧
  (r.ret = 0 ↔ h.parse_result = 0 ∧ h.start_result = 0)

/-- Two successive calls of a `report_fixup` function, the second on the
statics the first leaves behind, with unrelated devices, raw descriptors and
incoming sizes: both return the pointer `tbl`, both store the same value to
`*rsize`, the bytes behind the returned pointers are equal, and the statics
are after each call what they were before the first. -/
def IgnoresRawInput (fixup : Statics → hid_device → List Nat → Nat → FixupResult)
    (tbl : Buf) : Prop :=
  ∀ (m : Statics) (hdev₁ hdev₂ : hid_device) (rdesc₁ rdesc₂ : List Nat) (rsize₁ rsize₂ : Nat),
    (fixup m hdev₁ rdesc₁ rsize₁).ret = tbl ∧
    (fixup (fixup m hdev₁ rdesc₁ rsize₁).statics hdev₂ rdesc₂ rsize₂).ret = tbl ∧
    (fixup m hdev₁ rdesc₁ rsize₁).rsize =
      (fixup (fixup m hdev₁ rdesc₁ rsize₁).statics hdev₂ rdesc₂ rsize₂).rsize ∧
    (fixup m hdev₁ rdesc₁ rsize₁).statics = m ∧
    (fixup (fixup m hdev₁ rdesc₁ rsize₁).statics hdev₂ rdesc₂ rsize₂).statics = m ∧
    (fixup m hdev₁ rdesc₁ rsize₁).statics.deref rdesc₁ (fixup m hdev₁ rdesc₁ rsize₁).ret =
      (fixup (fixup m hdev₁ rdesc₁ rsize₁).statics hdev₂ rdesc₂ rsize₂).statics.deref rdesc₂
        (fixup (fixup m hdev₁ rdesc₁ rsize₁).statics hdev₂ rdesc₂ rsize₂).ret

/-- Every report of the table is a whole number of bytes: the table splits
into items, and for every Report ID (`none` is the implicit report) and
every kind the bits of the main items of that kind sum to a multiple of 8. -/
def WholeByteReports (tbl : List Nat) : Prop :=
  ∃ is, items tbl = some is ∧
    ∀ (rid : Option Nat) (kind : Kind), reportBits (fieldsFrom none 0 0 is) rid kind % 8 = 0

/-! ## Properties -/

/-- Fuel at least the number of bytes is never exhausted: any two such
amounts give the same split. -/
theorem parseItems_fuel (f₁ : Nat) : ∀ (f₂ : Nat) (bs : List Nat),
    bs.length ≤ f₁ → bs.length ≤ f₂ → parseItems f₁ bs = parseItems f₂ bs := by
  induction f₁ with
  | zero =>
    intro f₂ bs h₁ _
    have : bs = [] := List.length_eq_zero.mp (Nat.le_zero.mp h₁)
    subst this
    cases f₂ <;> rfl
  | succ n ih =>
    intro f₂ bs h₁ h₂
    cases bs with
    | nil => cases f₂ <;> rfl
    | cons b rest =>
      cases f₂ with
      | zero => simp at h₂
      | succ k =>
        simp only [List.length_cons, Nat.add_le_add_iff_right] at h₁ h₂
        simp only [parseItems]
        split
        · rfl
        · rw [ih k (rest.drop (dataLen b))
            (by rw [List.length_drop]; omega) (by rw [List.length_drop]; omega)]

/-- Every entry of the three tables fits a `__u8`. -/
theorem tables_hold_bytes :
    ∀ b ∈ f74n_rdesc_fixed ++ sfp_rdesc_fixed ++ gnescpr_rdesc_fixed, b < 256 := by
  decide

/-- None of the three tables uses a Push, Pop or long item, so Report ID,
Report Size and Report Count change only where a table sets them. -/
theorem tables_use_only_plain_short_items :
    ∀ it ∈ (items f74n_rdesc_fixed).getD [] ++ (items sfp_rdesc_fixed).getD [] ++
        (items gnescpr_rdesc_fixed).getD [],
      tagOf it ≠ 0xA4 ∧ tagOf it ≠ 0xB4 ∧ it.head ≠ 0xFE := by
  decide

/-- A key no field carries has no bits; so it is enough to check the keys
that occur. -/
theorem reportBits_mod_of_listed (fs : List Field)
    (h : ∀ f ∈ fs, reportBits fs f.reportId f.kind % 8 = 0) (rid : Option Nat) (kind : Kind) :
    reportBits fs rid kind % 8 = 0 := by
  by_cases hk : ∃ f ∈ fs, f.reportId = rid ∧ f.kind = kind
  · obtain ⟨f, hf, h₁, h₂⟩ := hk
    subst h₁ h₂
    exact h f hf
  · have : fs.filter (fun f => decide (f.reportId = rid ∧ f.kind = kind)) = [] := by
      rw [List.filter_eq_nil_iff]
      intro f hf hd
      exact hk ⟨f, hf, of_decide_eq_true hd⟩
    unfold reportBits
    rw [this]
    rfl

/-- Checking the occurring keys of a table that splits into items settles
`WholeByteReports`. -/
theorem wholeByteReports_of_check (tbl : List Nat) (is : List Item) (h₁ : items tbl = some is)
    (h₂ : ∀ f ∈ fieldsFrom none 0 0 is,
      reportBits (fieldsFrom none 0 0 is) f.reportId f.kind % 8 = 0) :
    WholeByteReports tbl :=
  ⟨is, h₁, reportBits_mod_of_listed _ h₂⟩

/-- C1 (as the code behaves): for every raw descriptor and incoming size,
`f74n_report_fixup` returns the table `f74n_rdesc_fixed` and stores that
table's length to `*rsize`; the table has 60 bytes, not the 85 its closing
comment and the registration table give. -/
theorem f74n_fixup_returns_table_of_60_bytes (hdev : hid_device)
    (rdesc : List Nat) (rsize : Nat) :
    (f74n_report_fixup Statics.init hdev rdesc rsize).ret = Buf.f74n_rdesc_fixed ∧
    Statics.init.deref rdesc (f74n_report_fixup Statics.init hdev rdesc rsize).ret
      = f74n_rdesc_fixed ∧
    (f74n_report_fixup Statics.init hdev rdesc rsize).rsize = f74n_rdesc_fixed.length ∧
    f74n_rdesc_fixed.length = 60 ∧ f74n_rdesc_fixed.length ≠ 85 := by
  refine ⟨rfl, rfl, rfl, rfl, ?_⟩
  decide

/-- C2 (as the code behaves): for every raw descriptor and incoming size,
`sfp_report_fixup` returns the table `sfp_rdesc_fixed` and stores that
table's length to `*rsize`; the table has 48 bytes, not the 31 its closing
comment and the registration table give. -/
theorem sfp_fixup_returns_table_of_48_bytes (hdev : hid_device)
    (rdesc : List Nat) (rsize : Nat) :
    (sfp_report_fixup Statics.init hdev rdesc rsize).ret = Buf.sfp_rdesc_fixed ∧
    Statics.init.deref rdesc (sfp_report_fixup Statics.init hdev rdesc rsize).ret
      = sfp_rdesc_fixed ∧
    (sfp_report_fixup Statics.init hdev rdesc rsize).rsize = sfp_rdesc_fixed.length ∧
    sfp_rdesc_fixed.length = 48 ∧ sfp_rdesc_fixed.length ≠ 31 := by
  refine ⟨rfl, rfl, rfl, rfl, ?_⟩
  decide

/-- C3: for every raw descriptor and incoming size, `gnescpr_report_fixup`
returns the table `gnescpr_rdesc_fixed`, stores that table's length to
`*rsize`, and the length is exactly 313 bytes. -/
theorem gnescpr_fixup_returns_table_of_313_bytes (hdev : hid_device)
    (rdesc : List Nat) (rsize : Nat) :
    (gnescpr_report_fixup Statics.init hdev rdesc rsize).ret = Buf.gnescpr_rdesc_fixed ∧
    Statics.init.deref rdesc (gnescpr_report_fixup Statics.init hdev rdesc rsize).ret
      = gnescpr_rdesc_fixed ∧
    (gnescpr_report_fixup Statics.init hdev rdesc rsize).rsize = gnescpr_rdesc_fixed.length ∧
    gnescpr_rdesc_fixed.length = 313 :=
  ⟨rfl, rfl, rfl, rfl⟩

/-- C4: in each of the three probes, a `dev_rsize` of 23 makes the probe
return `-ENODEV` without any call to `hid_parse` or `hid_hw_start`; with
any other `dev_rsize`, zero included, the first thing the probe does is
call `hid_parse`. -/
theorem probe_rejects_exactly_rsize_23 (h : Host) (hdev : hid_device) :
    (hdev.dev_rsize = 23 →
      (f74n_probe h hdev).ret = -h.ENODEV ∧ (f74n_probe h hdev).calls = [] ∧
      (sfp_probe h hdev).ret = -h.ENODEV ∧ (sfp_probe h hdev).calls = [] ∧
      (gnescpr_probe h hdev).ret = -h.ENODEV ∧ (gnescpr_probe h hdev).calls = []) ∧
    (hdev.dev_rsize ≠ 23 →
      (f74n_probe h hdev).calls.head? = some HostCall.hid_parse ∧
      (sfp_probe h hdev).calls.head? = some HostCall.hid_parse ∧
      (gnescpr_probe h hdev).calls.head? = some HostCall.hid_parse) := by
  constructor
  · intro h23
    simp [f74n_probe, sfp_probe, gnescpr_probe, h23]
  · intro hne
    simp only [f74n_probe, sfp_probe, gnescpr_probe, if_neg hne]
    refine ⟨?_, ?_, ?_⟩ <;> split <;> (try split) <;> rfl

/-- Witness for C4 at `dev_rsize = 23` and at `dev_rsize = 0`, with
`ENODEV = 19` and both host steps succeeding. -/
theorem probe_rejects_exactly_rsize_23_witness :
    ((f74n_probe ⟨19, 0, 0, 0⟩ ⟨0x16c0, 0x0486, 23⟩).ret = -19 ∧
      (f74n_probe ⟨19, 0, 0, 0⟩ ⟨0x16c0, 0x0486, 23⟩).calls = [] ∧
      (sfp_probe ⟨19, 0, 0, 0⟩ ⟨0x16c0, 0x0486, 23⟩).ret = -19 ∧
      (sfp_probe ⟨19, 0, 0, 0⟩ ⟨0x16c0, 0x0486, 23⟩).calls = [] ∧
      (gnescpr_probe ⟨19, 0, 0, 0⟩ ⟨0x16c0, 0x0486, 23⟩).ret = -19 ∧
      (gnescpr_probe ⟨19, 0, 0, 0⟩ ⟨0x16c0, 0x0486, 23⟩).calls = []) ∧
    ((f74n_probe ⟨19, 0, 0, 0⟩ ⟨0x16c0, 0x0486, 0⟩).calls.head? = some HostCall.hid_parse ∧
      (sfp_probe ⟨19, 0, 0, 0⟩ ⟨0x16c0, 0x0486, 0⟩).calls.head? = some HostCall.hid_parse ∧
      (gnescpr_probe ⟨19, 0, 0, 0⟩ ⟨0x16c0, 0x0486, 0⟩).calls.head? = some HostCall.hid_parse) :=
  ⟨(probe_rejects_exactly_rsize_23 ⟨19, 0, 0, 0⟩ ⟨0x16c0, 0x0486, 23⟩).1 rfl,
   (probe_rejects_exactly_rsize_23 ⟨19, 0, 0, 0⟩ ⟨0x16c0, 0x0486, 0⟩).2 (by decide)⟩

/-- C5: in each of the three probes, for every `dev_rsize` other than 23 and
every pair of host results: `hid_parse` is called exactly once; a non-zero
parse result is returned and `hid_hw_start` is not called; after a zero
parse result `hid_hw_start` is called exactly once and its result is
returned; the probe returns 0 exactly when both results are 0. -/
theorem probe_maps_host_results (h : Host) (hdev : hid_device)
    (hne : hdev.dev_rsize ≠ 23) :
    MapsHostResults h (f74n_probe h hdev) ∧
    MapsHostResults h (sfp_probe h hdev) ∧
    MapsHostResults h (gnescpr_probe h hdev) := by
  simp only [f74n_probe, sfp_probe, gnescpr_probe, if_neg hne, and_self]
  by_cases hp : h.parse_result = 0
  · by_cases hs : h.start_result = 0
    · simp [MapsHostResults, parseCalls, startCalls, hp, hs]
    · simp [MapsHostResults, parseCalls, startCalls, hp, hs]
  · simp [MapsHostResults, parseCalls, startCalls, hp]

/-- Witness for C5 at `dev_rsize = 64`, `ENODEV = 19`, a successful parse
and a hardware start failing with -5. -/
theorem probe_maps_host_results_witness :
    (64 : Nat) ≠ 23 ∧
    MapsHostResults ⟨19, 0, 0, -5⟩ (f74n_probe ⟨19, 0, 0, -5⟩ ⟨0x16c0, 0x0486, 64⟩) ∧
    MapsHostResults ⟨19, 0, 0, -5⟩ (sfp_probe ⟨19, 0, 0, -5⟩ ⟨0x16c0, 0x0486, 64⟩) ∧
    MapsHostResults ⟨19, 0, 0, -5⟩ (gnescpr_probe ⟨19, 0, 0, -5⟩ ⟨0x16c0, 0x0486, 64⟩) :=
  ⟨by decide, probe_maps_host_results ⟨19, 0, 0, -5⟩ ⟨0x16c0, 0x0486, 64⟩ (by decide)⟩

/-- C6: each of the three `report_fixup` functions ignores its raw input:
two calls with arbitrary devices, raw descriptors and incoming sizes return
the same static table and the same `*rsize`, and leave the statics as they
were. -/
theorem report_fixup_ignores_raw_input :
    IgnoresRawInput f74n_report_fixup Buf.f74n_rdesc_fixed ∧
    IgnoresRawInput sfp_report_fixup Buf.sfp_rdesc_fixed ∧
    IgnoresRawInput gnescpr_report_fixup Buf.gnescpr_rdesc_fixed := by
  refine ⟨?_, ?_, ?_⟩ <;> intro m hdev₁ hdev₂ rdesc₁ rdesc₂ rsize₁ rsize₂ <;>
    exact ⟨rfl, rfl, rfl, rfl, rfl, rfl⟩

/-- C8 (as the code behaves): each id table has exactly one entry before its
sentinel, but only that of `sfp_devices` names identifiers its file defines
and denotes (0x10c4, 0x8ccc); the entries of `f74n_devices` and
`gnescpr_devices` name identifiers their files do not define, so they denote
no identity, while the constants the files do define carry the expected
values. -/
theorem id_tables_as_written :
    (beforeSentinel f74n_devices).length = 1 ∧
    (beforeSentinel sfp_devices).length = 1 ∧
    (beforeSentinel gnescpr_devices).length = 1 ∧
    registered sfp_defines sfp_devices = [some (0x10c4, 0x8ccc)] ∧
    registered f74n_defines f74n_devices = [none] ∧
    registered gnescpr_defines gnescpr_devices = [none] ∧
    f74n_defines.map Prod.snd = [0x16c0, 0x0486] ∧
    gnescpr_defines.map Prod.snd = [0x231d, 0x0200] := by
  refine ⟨?_, ?_, ?_, ?_, ?_, ?_, ?_, ?_⟩ <;> decide

/-- C9 (as the code behaves): all three tables split exactly into short
items; `sfp_rdesc_fixed` and `gnescpr_rdesc_fixed` have balanced
collections, but `f74n_rdesc_fixed` does not: it has one Collection item
and two End Collection items, so the depth drops below zero at its last
item. -/
theorem tables_item_streams :
    (items f74n_rdesc_fixed).isSome = true ∧
    ((items f74n_rdesc_fixed).getD []).countP (fun it => decide (it.head = 0xA1)) = 1 ∧
    ((items f74n_rdesc_fixed).getD []).countP (fun it => decide (it.head = 0xC0)) = 2 ∧
    wellFormed f74n_rdesc_fixed = false ∧
    wellFormed sfp_rdesc_fixed = true ∧
    wellFormed gnescpr_rdesc_fixed = true := by
  refine ⟨?_, ?_, ?_, ?_, ?_, ?_⟩ <;> decide

/-- C10: in each of the three tables every report is a whole number of
bytes: for every Report ID in effect (or the implicit report) and every main
item kind, the sum of Report Size times Report Count over the main items of
that kind, the data read as unsigned, is a multiple of 8. -/
theorem reports_are_whole_bytes :
    WholeByteReports f74n_rdesc_fixed ∧
    WholeByteReports sfp_rdesc_fixed ∧
    WholeByteReports gnescpr_rdesc_fixed := by
  refine ⟨?_, ?_, ?_⟩
  · exact wholeByteReports_of_check _ ((items f74n_rdesc_fixed).getD []) (by decide) (by decide)
  · exact wholeByteReports_of_check _ ((items sfp_rdesc_fixed).getD []) (by decide) (by decide)
  · exact wholeByteReports_of_check _ ((items gnescpr_rdesc_fixed).getD []) (by decide)
      (by decide)

end HidDrivers
